import Mathlib

/-!
Verification of the reversible workload generators of the iSPD exa engine
(`src/include/ispd/workload/workload.hpp`) and of the startup user check
(`src/src/main.cpp`), as a shallow embedding in Lean 4.

Doubles are embedded as rationals, the C++ `unsigned` remaining-task counter
as a natural number reduced modulo 2^32 at each mutation, and the external
ROSS reversible pseudorandom stream (`tw_rng_stream`, `tw_rand_unif`,
`tw_rand_reverse_unif`) as a cursor over an infinite sequence of rational
draws, following the interface the spec ascribes to it: a forward draw
advances the stream position by one and yields the value at the old
position, and a reverse draw moves the position back by one, exactly
undoing the last forward draw.
-/

/-- Modulus of the C++ `unsigned` type used for `m_RemainingTasks`
(4294967296 = 2^32). -/
def UNSIGNED_MOD : Nat := 4294967296

/-- The C++ post-decrement `m_RemainingTasks--` on a 32-bit unsigned value:
subtraction modulo 2^32, so decrementing 0 wraps to 4294967295. -/
def unsignedDec (n : Nat) : Nat := (n + (UNSIGNED_MOD - 1)) % UNSIGNED_MOD

/-- The C++ post-increment `m_RemainingTasks++` on a 32-bit unsigned value:
addition modulo 2^32. -/
def unsignedInc (n : Nat) : Nat := (n + 1) % UNSIGNED_MOD

/-- Modelled from the spec: the ROSS reversible pseudorandom stream handle
(`tw_rng_stream`) is external to this repository. The spec describes it as a
random stream supporting a forward draw and an exact reverse-of-last-draw, so
it is embedded as an immutable infinite sequence `seq` of draw values together
with a current position `pos`. -/
structure tw_rng_stream where
  seq : Nat → Rat
  pos : Nat

/-- Modelled from the spec: ROSS `tw_rand_unif` draws the next uniform value
from the stream, returning the value at the current position and advancing
the position by one. -/
def tw_rand_unif (rng : tw_rng_stream) : Rat × tw_rng_stream :=
  (rng.seq rng.pos, ⟨rng.seq, rng.pos + 1⟩)

/-- Modelled from the spec: ROSS `tw_rand_reverse_unif` exactly reverses the
last forward draw by moving the stream position back by one. -/
def tw_rand_reverse_unif (rng : tw_rng_stream) : tw_rng_stream :=
  ⟨rng.seq, rng.pos - 1⟩

/-- State of `ispd::workload::ConstantWorkload`: the inherited
`m_RemainingTasks` counter plus the two constant sizes. -/
structure ConstantWorkload where
  m_RemainingTasks : Nat
  m_ConstantProcSize : Rat
  m_ConstantCommSize : Rat
deriving DecidableEq

/-- State of `ispd::workload::UniformWorkload`: the inherited
`m_RemainingTasks` counter plus the four bounds. -/
structure UniformWorkload where
  m_RemainingTasks : Nat
  m_MinProcSize : Rat
  m_MaxProcSize : Rat
  m_MinCommSize : Rat
  m_MaxCommSize : Rat
deriving DecidableEq

/-- Result of a `generateWorkload` call: the updated workload object, the
updated stream, and the two out-parameters `procSize` and `commSize`. -/
structure GenResult (W : Type) where
  wl : W
  rng : tw_rng_stream
  procSize : Rat
  commSize : Rat

/-- `ConstantWorkload::generateWorkload` (workload.hpp:153-159): writes the
two constant sizes to the out-parameters and post-decrements
`m_RemainingTasks`; the stream is not touched. -/
def ConstantWorkload.generateWorkload (w : ConstantWorkload)
    (rng : tw_rng_stream) : GenResult ConstantWorkload :=
  { wl := { w with m_RemainingTasks := unsignedDec w.m_RemainingTasks },
    rng := rng,
    procSize := w.m_ConstantProcSize,
    commSize := w.m_ConstantCommSize }

/-- `ConstantWorkload::reverseGenerateWorkload` (workload.hpp:171-173):
post-increments `m_RemainingTasks`; the stream is not touched. -/
def ConstantWorkload.reverseGenerateWorkload (w : ConstantWorkload)
    (rng : tw_rng_stream) : ConstantWorkload × tw_rng_stream :=
  ({ w with m_RemainingTasks := unsignedInc w.m_RemainingTasks }, rng)

/-- `UniformWorkload::generateWorkload` (workload.hpp:254-270): draws one
uniform for the processing size, then one uniform for the communication size,
scales each into its bounds, and post-decrements `m_RemainingTasks`. -/
def UniformWorkload.generateWorkload (w : UniformWorkload)
    (rng : tw_rng_stream) : GenResult UniformWorkload :=
  let d1 := tw_rand_unif rng
  let procSize := w.m_MinProcSize + d1.1 * (w.m_MaxProcSize - w.m_MinProcSize)
  let d2 := tw_rand_unif d1.2
  let commSize := w.m_MinCommSize + d2.1 * (w.m_MaxCommSize - w.m_MinCommSize)
  { wl := { w with m_RemainingTasks := unsignedDec w.m_RemainingTasks },
    rng := d2.2,
    procSize := procSize,
    commSize := commSize }

/-- `UniformWorkload::reverseGenerateWorkload` (workload.hpp:284-300): two
`tw_rand_reverse_unif` calls (the first reverses the communication draw, the
second the processing draw), then post-increments `m_RemainingTasks`. -/
def UniformWorkload.reverseGenerateWorkload (w : UniformWorkload)
    (rng : tw_rng_stream) : UniformWorkload × tw_rng_stream :=
  let rng1 := tw_rand_reverse_unif rng
  let rng2 := tw_rand_reverse_unif rng1
  ({ w with m_RemainingTasks := unsignedInc w.m_RemainingTasks }, rng2)

/-- Whether an `Except`-modelled constructor or check completed without
calling `ispd_error` (which aborts the process with a diagnostic). -/
def constructOk {ε α : Type} : Except ε α → Bool
  | Except.ok _ => true
  | Except.error _ => false

/-- `ConstantWorkload::ConstantWorkload` (workload.hpp:119-136): member
initialization followed by the two positivity checks, each of which calls
`ispd_error` (modelled as `Except.error` with the diagnostic's static text)
when the size is not strictly positive. -/
def ConstantWorkload.construct (remainingTasks : Nat)
    (constantProcSize constantCommSize : Rat) :
    Except String ConstantWorkload :=
  if constantProcSize ≤ 0 then
    Except.error "Constant processing size must be positive."
  else if constantCommSize ≤ 0 then
    Except.error "Constant communication size must be positive."
  else
    Except.ok { m_RemainingTasks := remainingTasks,
                m_ConstantProcSize := constantProcSize,
                m_ConstantCommSize := constantCommSize }

/-- `UniformWorkload::UniformWorkload` (workload.hpp:209-238): member
initialization followed by four positivity checks, in source order, each
calling `ispd_error` when the bound is not strictly positive. No relation
between minimum and maximum bounds is checked. -/
def UniformWorkload.construct (remainingTasks : Nat)
    (minProcSize maxProcSize minCommSize maxCommSize : Rat) :
    Except String UniformWorkload :=
  if minProcSize ≤ 0 then
    Except.error "Minimum processing size must be positive."
  else if maxProcSize ≤ 0 then
    Except.error "Maximum processing size must be positive."
  else if minCommSize ≤ 0 then
    Except.error "Minimum communication size must be positive."
  else if maxCommSize ≤ 0 then
    Except.error "Maximum communication size must be positive."
  else
    Except.ok { m_RemainingTasks := remainingTasks,
                m_MinProcSize := minProcSize,
                m_MaxProcSize := maxProcSize,
                m_MinCommSize := minCommSize,
                m_MaxCommSize := maxCommSize }

/-- Outcome of the startup sequence of `main` around the registered-user
check: either the fatal diagnostic or proceeding into `tw_run()`. -/
inductive StartupOutcome where
  | fatalError (msg : String)
  | simulationRun
deriving DecidableEq

/-- The registered-user check of `main` (main.cpp:106-109), with the set of
registered users abstracted as the list `users` returned by
`ispd::this_model::getUsers()`: if it is empty, `ispd_error` aborts with a
diagnostic before `tw_run()` is reached; otherwise the run proceeds. -/
def mainStartup (users : List String) : StartupOutcome :=
  if users.length = 0 then
    StartupOutcome.fatalError "At least one user must be registered."
  else
    StartupOutcome.simulationRun

/-- Increment after decrement is the identity on values representable in a
32-bit unsigned counter. -/
theorem unsignedInc_unsignedDec (n : Nat) (h : n < UNSIGNED_MOD) :
    unsignedInc (unsignedDec n) = n := by
  simp only [unsignedInc, unsignedDec, UNSIGNED_MOD] at *
  omega

/-- Decrement of a positive representable counter is ordinary subtraction. -/
theorem unsignedDec_of_pos (n : Nat) (h0 : 0 < n) (h : n < UNSIGNED_MOD) :
    unsignedDec n = n - 1 := by
  simp only [unsignedDec, UNSIGNED_MOD] at *
  omega

/-- The uniform constructor succeeds exactly when all four bounds are
strictly positive. -/
theorem uniformConstruct_ok_iff (n : Nat) (a b c d : Rat) :
    constructOk (UniformWorkload.construct n a b c d) = true ↔
      0 < a ∧ 0 < b ∧ 0 < c ∧ 0 < d := by
  constructor
  · intro h
    by_cases ha : a ≤ 0
    · simp [UniformWorkload.construct, constructOk, ha] at h
    by_cases hb : b ≤ 0
    · simp [UniformWorkload.construct, constructOk, ha, hb] at h
    by_cases hc : c ≤ 0
    · simp [UniformWorkload.construct, constructOk, ha, hb, hc] at h
    by_cases hd : d ≤ 0
    · simp [UniformWorkload.construct, constructOk, ha, hb, hc, hd] at h
    exact ⟨lt_of_not_le ha, lt_of_not_le hb, lt_of_not_le hc, lt_of_not_le hd⟩
  · rintro ⟨ha, hb, hc, hd⟩
    simp [UniformWorkload.construct, constructOk, not_le.mpr ha,
      not_le.mpr hb, not_le.mpr hc, not_le.mpr hd]

/-- The constant constructor succeeds exactly when both sizes are strictly
positive. -/
theorem constantConstruct_ok_iff (n : Nat) (p c : Rat) :
    constructOk (ConstantWorkload.construct n p c) = true ↔ 0 < p ∧ 0 < c := by
  constructor
  · intro h
    by_cases hp : p ≤ 0
    · simp [ConstantWorkload.construct, constructOk, hp] at h
    by_cases hc : c ≤ 0
    · simp [ConstantWorkload.construct, constructOk, hp, hc] at h
    exact ⟨lt_of_not_le hp, lt_of_not_le hc⟩
  · rintro ⟨hp, hc⟩
    simp [ConstantWorkload.construct, constructOk, not_le.mpr hp,
      not_le.mpr hc]

/-- A sample stream whose draws are all zero, used to instantiate proved
properties at concrete inputs. -/
def sampleRng : tw_rng_stream := ⟨fun _ => 0, 0⟩

/-- A sample constant workload: 3 remaining tasks, sizes 5 and 7. -/
def sampleConstant : ConstantWorkload := ⟨3, 5, 7⟩

/-- A sample uniform workload: 5 remaining tasks, processing bounds [1, 2],
communication bounds [3, 4]. -/
def sampleUniform : UniformWorkload := ⟨5, 1, 2, 3, 4⟩

/-- C3: for every `ConstantWorkload` with constant sizes `(p, c)` and
remaining-task count `n` with `0 < n` (representable in `unsigned`),
`generateWorkload` writes exactly `p` to the processing size and `c` to the
communication size, decrements the counter from `n` to `n - 1`, and consumes
zero draws from the stream. -/
theorem constantGenerate_spec (w : ConstantWorkload) (rng : tw_rng_stream)
    (h0 : 0 < w.m_RemainingTasks) (h1 : w.m_RemainingTasks < UNSIGNED_MOD) :
    (w.generateWorkload rng).procSize = w.m_ConstantProcSize ∧
    (w.generateWorkload rng).commSize = w.m_ConstantCommSize ∧
    (w.generateWorkload rng).wl.m_RemainingTasks = w.m_RemainingTasks - 1 ∧
    (w.generateWorkload rng).rng = rng := by
  refine ⟨rfl, rfl, ?_, rfl⟩
  simp [ConstantWorkload.generateWorkload, unsignedDec_of_pos _ h0 h1]

/-- Witness for C3 at the sample constant workload and the sample stream. -/
theorem constantGenerate_spec_witness :
    0 < sampleConstant.m_RemainingTasks ∧
    sampleConstant.m_RemainingTasks < UNSIGNED_MOD ∧
    ((sampleConstant.generateWorkload sampleRng).procSize
        = sampleConstant.m_ConstantProcSize ∧
      (sampleConstant.generateWorkload sampleRng).commSize
        = sampleConstant.m_ConstantCommSize ∧
      (sampleConstant.generateWorkload sampleRng).wl.m_RemainingTasks
        = sampleConstant.m_RemainingTasks - 1 ∧
      (sampleConstant.generateWorkload sampleRng).rng = sampleRng) :=
  ⟨by decide, by decide,
    constantGenerate_spec sampleConstant sampleRng (by decide) (by decide)⟩

/-- C5: the `ConstantWorkload` constructor aborts with a diagnostic (fatal
configuration error, before any simulation event) when either constant size
is non-positive, and succeeds exactly when both are strictly positive. -/
theorem constantConstruct_spec (n : Nat) (p c : Rat) :
    (constructOk (ConstantWorkload.construct n p c) = true ↔
      0 < p ∧ 0 < c) ∧
    ConstantWorkload.construct n 0 c
      = Except.error "Constant processing size must be positive." :=
  ⟨constantConstruct_ok_iff n p c, by
    simp [ConstantWorkload.construct]⟩

/-- C6: the `UniformWorkload` constructor aborts with a configuration error
when any of its four bounds is non-positive (succeeding exactly when all four
are strictly positive); in particular `minProcSize = 0` aborts. -/
theorem uniformConstruct_spec (n : Nat) (a b c d : Rat) :
    (constructOk (UniformWorkload.construct n a b c d) = true ↔
      0 < a ∧ 0 < b ∧ 0 < c ∧ 0 < d) ∧
    UniformWorkload.construct n 0 b c d
      = Except.error "Minimum processing size must be positive." :=
  ⟨uniformConstruct_ok_iff n a b c d, by
    simp [UniformWorkload.construct]⟩

/-- C8: at the registered-user check of `main`, an empty user set aborts with
the fatal diagnostic before the simulation runs, and a non-empty user set
passes the check so the run proceeds. -/
theorem startup_requires_user (users : List String) :
    (mainStartup users = StartupOutcome.simulationRun ↔ users ≠ []) ∧
    mainStartup []
      = StartupOutcome.fatalError "At least one user must be registered." := by
  constructor
  · cases users <;> simp [mainStartup]
  · simp [mainStartup]

/-- C9: calling `generateWorkload` with a remaining-task counter of 0 raises
no error in either variant; the unsigned counter wraps modulo 2^32 to
4294967295. -/
theorem generate_at_zero_wraps (wc : ConstantWorkload) (wu : UniformWorkload)
    (rng : tw_rng_stream)
    (hc : wc.m_RemainingTasks = 0) (hu : wu.m_RemainingTasks = 0) :
    (wc.generateWorkload rng).wl.m_RemainingTasks = 4294967295 ∧
    (wu.generateWorkload rng).wl.m_RemainingTasks = 4294967295 := by
  constructor
  · simp [ConstantWorkload.generateWorkload, hc, unsignedDec, UNSIGNED_MOD]
  · simp [UniformWorkload.generateWorkload, hu, unsignedDec, UNSIGNED_MOD]

/-- Witness for C9: both variants with counter 0 wrap to 4294967295. -/
theorem generate_at_zero_wraps_witness :
    (ConstantWorkload.mk 0 5 7).m_RemainingTasks = 0 ∧
    (UniformWorkload.mk 0 1 2 3 4).m_RemainingTasks = 0 ∧
    ((ConstantWorkload.mk 0 5 7).generateWorkload
        sampleRng).wl.m_RemainingTasks = 4294967295 ∧
    ((UniformWorkload.mk 0 1 2 3 4).generateWorkload
        sampleRng).wl.m_RemainingTasks = 4294967295 :=
  ⟨rfl, rfl,
    (generate_at_zero_wraps (ConstantWorkload.mk 0 5 7)
      (UniformWorkload.mk 0 1 2 3 4) sampleRng rfl rfl).1,
    (generate_at_zero_wraps (ConstantWorkload.mk 0 5 7)
      (UniformWorkload.mk 0 1 2 3 4) sampleRng rfl rfl).2⟩

/-- C10: for both variants, `generateWorkload` and `reverseGenerateWorkload`
mutate only the remaining-task counter: the constant sizes of
`ConstantWorkload` and the four bounds of `UniformWorkload` are unchanged by
every call to either operation. -/
theorem workload_params_frame (wc : ConstantWorkload) (wu : UniformWorkload)
    (rng : tw_rng_stream) :
    ((wc.generateWorkload rng).wl.m_ConstantProcSize = wc.m_ConstantProcSize ∧
      (wc.generateWorkload rng).wl.m_ConstantCommSize
        = wc.m_ConstantCommSize) ∧
    ((wc.reverseGenerateWorkload rng).1.m_ConstantProcSize
        = wc.m_ConstantProcSize ∧
      (wc.reverseGenerateWorkload rng).1.m_ConstantCommSize
        = wc.m_ConstantCommSize) ∧
    ((wu.generateWorkload rng).wl.m_MinProcSize = wu.m_MinProcSize ∧
      (wu.generateWorkload rng).wl.m_MaxProcSize = wu.m_MaxProcSize ∧
      (wu.generateWorkload rng).wl.m_MinCommSize = wu.m_MinCommSize ∧
      (wu.generateWorkload rng).wl.m_MaxCommSize = wu.m_MaxCommSize) ∧
    ((wu.reverseGenerateWorkload rng).1.m_MinProcSize = wu.m_MinProcSize ∧
      (wu.reverseGenerateWorkload rng).1.m_MaxProcSize = wu.m_MaxProcSize ∧
      (wu.reverseGenerateWorkload rng).1.m_MinCommSize = wu.m_MinCommSize ∧
      (wu.reverseGenerateWorkload rng).1.m_MaxCommSize = wu.m_MaxCommSize) := by
  cases wc with
  | mk nc pc cc =>
    cases wu with
    | mk nu ap bp ac bc =>
      exact ⟨⟨rfl, rfl⟩, ⟨rfl, rfl⟩, ⟨rfl, rfl, rfl, rfl⟩,
        ⟨rfl, rfl, rfl, rfl⟩⟩

/-- C1: for both workload variants, every stream state, and every
representable remaining-task count, `reverseGenerateWorkload` immediately
after `generateWorkload` restores the remaining-task counter to its pre-call
value and restores the stream position, so a subsequent `generateWorkload`
reproduces exactly the processing and communication sizes of the original
call. -/
theorem workload_rng_symmetry
    (wc : ConstantWorkload) (wu : UniformWorkload) (rng : tw_rng_stream)
    (hc : wc.m_RemainingTasks < UNSIGNED_MOD)
    (hu : wu.m_RemainingTasks < UNSIGNED_MOD) :
    (((wc.generateWorkload rng).wl.reverseGenerateWorkload
          (wc.generateWorkload rng).rng).1.m_RemainingTasks
        = wc.m_RemainingTasks ∧
      ((wc.generateWorkload rng).wl.reverseGenerateWorkload
          (wc.generateWorkload rng).rng).2 = rng ∧
      ((((wc.generateWorkload rng).wl.reverseGenerateWorkload
            (wc.generateWorkload rng).rng).1.generateWorkload
          ((wc.generateWorkload rng).wl.reverseGenerateWorkload
            (wc.generateWorkload rng).rng).2).procSize
        = (wc.generateWorkload rng).procSize ∧
        (((wc.generateWorkload rng).wl.reverseGenerateWorkload
            (wc.generateWorkload rng).rng).1.generateWorkload
          ((wc.generateWorkload rng).wl.reverseGenerateWorkload
            (wc.generateWorkload rng).rng).2).commSize
        = (wc.generateWorkload rng).commSize)) ∧
    (((wu.generateWorkload rng).wl.reverseGenerateWorkload
          (wu.generateWorkload rng).rng).1.m_RemainingTasks
        = wu.m_RemainingTasks ∧
      ((wu.generateWorkload rng).wl.reverseGenerateWorkload
          (wu.generateWorkload rng).rng).2 = rng ∧
      ((((wu.generateWorkload rng).wl.reverseGenerateWorkload
            (wu.generateWorkload rng).rng).1.generateWorkload
          ((wu.generateWorkload rng).wl.reverseGenerateWorkload
            (wu.generateWorkload rng).rng).2).procSize
        = (wu.generateWorkload rng).procSize ∧
        (((wu.generateWorkload rng).wl.reverseGenerateWorkload
            (wu.generateWorkload rng).rng).1.generateWorkload
          ((wu.generateWorkload rng).wl.reverseGenerateWorkload
            (wu.generateWorkload rng).rng).2).commSize
        = (wu.generateWorkload rng).commSize)) := by
  cases wc with
  | mk n p c =>
    cases wu with
    | mk m pa pb ca cb =>
      cases rng with
      | mk s k =>
        simp only [ConstantWorkload.generateWorkload,
          ConstantWorkload.reverseGenerateWorkload,
          UniformWorkload.generateWorkload,
          UniformWorkload.reverseGenerateWorkload,
          tw_rand_unif, tw_rand_reverse_unif, Nat.add_sub_cancel,
          tw_rng_stream.mk.injEq] at *
        exact ⟨⟨unsignedInc_unsignedDec n hc, trivial, trivial, trivial⟩,
          unsignedInc_unsignedDec m hu, trivial, trivial, trivial⟩

/-- Witness for C1 at the sample workloads and the all-zero sample stream. -/
theorem workload_rng_symmetry_witness :
    sampleConstant.m_RemainingTasks < UNSIGNED_MOD ∧
    sampleUniform.m_RemainingTasks < UNSIGNED_MOD ∧
    ((((sampleConstant.generateWorkload sampleRng).wl.reverseGenerateWorkload
          (sampleConstant.generateWorkload sampleRng).rng).1.m_RemainingTasks
        = sampleConstant.m_RemainingTasks ∧
      ((sampleConstant.generateWorkload
          sampleRng).wl.reverseGenerateWorkload
          (sampleConstant.generateWorkload sampleRng).rng).2 = sampleRng ∧
      ((((sampleConstant.generateWorkload
            sampleRng).wl.reverseGenerateWorkload
            (sampleConstant.generateWorkload
              sampleRng).rng).1.generateWorkload
          ((sampleConstant.generateWorkload
            sampleRng).wl.reverseGenerateWorkload
            (sampleConstant.generateWorkload sampleRng).rng).2).procSize
        = (sampleConstant.generateWorkload sampleRng).procSize ∧
        (((sampleConstant.generateWorkload
            sampleRng).wl.reverseGenerateWorkload
            (sampleConstant.generateWorkload
              sampleRng).rng).1.generateWorkload
          ((sampleConstant.generateWorkload
            sampleRng).wl.reverseGenerateWorkload
            (sampleConstant.generateWorkload sampleRng).rng).2).commSize
        = (sampleConstant.generateWorkload sampleRng).commSize)) ∧
    (((sampleUniform.generateWorkload sampleRng).wl.reverseGenerateWorkload
          (sampleUniform.generateWorkload sampleRng).rng).1.m_RemainingTasks
        = sampleUniform.m_RemainingTasks ∧
      ((sampleUniform.generateWorkload sampleRng).wl.reverseGenerateWorkload
          (sampleUniform.generateWorkload sampleRng).rng).2 = sampleRng ∧
      ((((sampleUniform.generateWorkload
            sampleRng).wl.reverseGenerateWorkload
            (sampleUniform.generateWorkload
              sampleRng).rng).1.generateWorkload
          ((sampleUniform.generateWorkload
            sampleRng).wl.reverseGenerateWorkload
            (sampleUniform.generateWorkload sampleRng).rng).2).procSize
        = (sampleUniform.generateWorkload sampleRng).procSize ∧
        (((sampleUniform.generateWorkload
            sampleRng).wl.reverseGenerateWorkload
            (sampleUniform.generateWorkload
              sampleRng).rng).1.generateWorkload
          ((sampleUniform.generateWorkload
            sampleRng).wl.reverseGenerateWorkload
            (sampleUniform.generateWorkload sampleRng).rng).2).commSize
        = (sampleUniform.generateWorkload sampleRng).commSize))) :=
  ⟨by decide, by decide,
    workload_rng_symmetry sampleConstant sampleUniform sampleRng
      (by decide) (by decide)⟩

/-- C2: `UniformWorkload::generateWorkload` draws exactly two uniforms (the
stream advances by exactly two positions), the processing-size draw first
(from the original position) and the communication-size draw second (from the
next position); `UniformWorkload::reverseGenerateWorkload` issues exactly two
reverse draws on the same stream, undoing them in reverse order of the
original draws (its first reverse draw returns the stream to the state right
after the processing draw, i.e. it reverses the communication draw, and its
second returns it to the original state), and it increments the
remaining-task counter by one (modulo 2^32). -/
theorem uniform_draw_order (wu : UniformWorkload) (rng : tw_rng_stream) :
    (wu.generateWorkload rng).rng.pos = rng.pos + 2 ∧
    (wu.generateWorkload rng).rng.seq = rng.seq ∧
    (wu.generateWorkload rng).procSize
      = wu.m_MinProcSize
          + rng.seq rng.pos * (wu.m_MaxProcSize - wu.m_MinProcSize) ∧
    (wu.generateWorkload rng).commSize
      = wu.m_MinCommSize
          + rng.seq (rng.pos + 1) * (wu.m_MaxCommSize - wu.m_MinCommSize) ∧
    tw_rand_reverse_unif (wu.generateWorkload rng).rng
      = (tw_rand_unif rng).2 ∧
    (wu.reverseGenerateWorkload rng).2
      = tw_rand_reverse_unif (tw_rand_reverse_unif rng) ∧
    ((wu.generateWorkload rng).wl.reverseGenerateWorkload
        (wu.generateWorkload rng).rng).2 = rng ∧
    (wu.reverseGenerateWorkload rng).1.m_RemainingTasks
      = (wu.m_RemainingTasks + 1) % UNSIGNED_MOD := by
  cases wu with
  | mk m pa pb ca cb =>
    cases rng with
    | mk s k =>
      simp only [UniformWorkload.generateWorkload,
        UniformWorkload.reverseGenerateWorkload, tw_rand_unif,
        tw_rand_reverse_unif, unsignedInc, Nat.add_sub_cancel,
        tw_rng_stream.mk.injEq] at *
      exact ⟨trivial, trivial, trivial, trivial, trivial, trivial,
        trivial, trivial⟩

/-- C4: under min ≤ max in each dimension and uniform draws lying in [0, 1],
`UniformWorkload::generateWorkload` produces a processing size within
[minProcSize, maxProcSize] and a communication size within
[minCommSize, maxCommSize]. -/
theorem uniform_generate_bounds (w : UniformWorkload) (rng : tw_rng_stream)
    (hp : w.m_MinProcSize ≤ w.m_MaxProcSize)
    (hm : w.m_MinCommSize ≤ w.m_MaxCommSize)
    (h1a : 0 ≤ rng.seq rng.pos) (h1b : rng.seq rng.pos ≤ 1)
    (h2a : 0 ≤ rng.seq (rng.pos + 1)) (h2b : rng.seq (rng.pos + 1) ≤ 1) :
    w.m_MinProcSize ≤ (w.generateWorkload rng).procSize ∧
    (w.generateWorkload rng).procSize ≤ w.m_MaxProcSize ∧
    w.m_MinCommSize ≤ (w.generateWorkload rng).commSize ∧
    (w.generateWorkload rng).commSize ≤ w.m_MaxCommSize := by
  cases w with
  | mk m pa pb ca cb =>
    cases rng with
    | mk s k =>
      simp only [UniformWorkload.generateWorkload, tw_rand_unif] at *
      refine ⟨?_, ?_, ?_, ?_⟩
      · nlinarith [mul_nonneg h1a (sub_nonneg.mpr hp)]
      · nlinarith [mul_le_of_le_one_left (sub_nonneg.mpr hp) h1b]
      · nlinarith [mul_nonneg h2a (sub_nonneg.mpr hm)]
      · nlinarith [mul_le_of_le_one_left (sub_nonneg.mpr hm) h2b]

/-- Witness for C4 at the sample uniform workload and the all-zero sample
stream. -/
theorem uniform_generate_bounds_witness :
    sampleUniform.m_MinProcSize ≤ sampleUniform.m_MaxProcSize ∧
    sampleUniform.m_MinCommSize ≤ sampleUniform.m_MaxCommSize ∧
    0 ≤ sampleRng.seq sampleRng.pos ∧ sampleRng.seq sampleRng.pos ≤ 1 ∧
    0 ≤ sampleRng.seq (sampleRng.pos + 1) ∧
    sampleRng.seq (sampleRng.pos + 1) ≤ 1 ∧
    (sampleUniform.m_MinProcSize
        ≤ (sampleUniform.generateWorkload sampleRng).procSize ∧
      (sampleUniform.generateWorkload sampleRng).procSize
        ≤ sampleUniform.m_MaxProcSize ∧
      sampleUniform.m_MinCommSize
        ≤ (sampleUniform.generateWorkload sampleRng).commSize ∧
      (sampleUniform.generateWorkload sampleRng).commSize
        ≤ sampleUniform.m_MaxCommSize) :=
  ⟨by decide, by decide, by decide, by decide, by decide, by decide,
    uniform_generate_bounds sampleUniform sampleRng (by decide) (by decide)
      (by decide) (by decide) (by decide) (by decide)⟩

/-- C7 counterexample: the claim that the `UniformWorkload` constructor
rejects some positive bounds with max < min is false; every choice of four
strictly positive bounds is accepted, whatever their ordering. -/
theorem uniform_no_minmax_validation :
    ¬ ∃ (n : Nat) (a b c d : Rat), 0 < a ∧ 0 < b ∧ 0 < c ∧ 0 < d ∧
        (b < a ∨ d < c) ∧
        constructOk (UniformWorkload.construct n a b c d) = false := by
  rintro ⟨n, a, b, c, d, ha, hb, hc, hd, _, hfail⟩
  rw [(uniformConstruct_ok_iff n a b c d).mpr ⟨ha, hb, hc, hd⟩] at hfail
  exact Bool.noConfusion hfail

/-- C7 (amended): `UniformWorkload` construction validates only positivity of
the four bounds; it never compares a maximum with a minimum, so construction
succeeds for all strictly positive bounds, including those with
maxProcSize < minProcSize or maxCommSize < minCommSize. -/
theorem uniform_construct_positivity_only (n : Nat) (a b c d : Rat)
    (ha : 0 < a) (hb : 0 < b) (hc : 0 < c) (hd : 0 < d) :
    constructOk (UniformWorkload.construct n a b c d) = true :=
  (uniformConstruct_ok_iff n a b c d).mpr ⟨ha, hb, hc, hd⟩

/-- Witness for the amended C7: bounds (minProc, maxProc, minComm, maxComm)
= (2, 1, 1, 1) are all positive with maxProcSize < minProcSize, and
construction succeeds. -/
theorem uniform_construct_positivity_only_witness :
    0 < (2 : Rat) ∧ 0 < (1 : Rat) ∧ (1 : Rat) < 2 ∧
    constructOk (UniformWorkload.construct 7 2 1 1 1) = true :=
  ⟨by decide, by decide, by decide,
    uniform_construct_positivity_only 7 2 1 1 1 (by decide) (by decide)
      (by decide) (by decide)⟩
